import Mathlib

/-!
Shallow embedding of src/src/index.ts (Buffer video uploader).

The script is a linear four-stage pipeline: request an S3 pre-signed URL,
PUT the file bytes, register the upload, create a post; plus local
filesystem bookkeeping (intake directory scan, caption selection, move to
the completion directory).

Modelling choices:
  * Dynamically-typed JSON response bodies are modelled by the inductive
    type `JsVal`; JavaScript truthiness, property access (with the
    `undefined` result on absent keys), and the `in` operator are modelled
    by `truthy`, `jsGet`, `hasKey`.
  * Every remote call is mediated by an `Oracle` giving each endpoint's
    outcome: `Except.error msg` models a transport/HTTP failure thrown by
    axios (the catch-blocks' message wrapping is applied where the source
    applies it), `Except.ok body` a 2xx response with the given body.
  * File paths are identified with their base names relative to the
    process working directory: `findVideoFile` returns a name from the
    intake directory listing and `path.basename (path.join dir name)`
    cancels for slash-free directory entries, so the join/basename pair of
    the source is the identity here.
  * `Math.random()` is modelled as a rational `rand` with `0 ≤ rand < 1`
    supplied as an input; `Math.floor` on the nonnegative product is
    `Int.floor` followed by `Int.toNat`.
  * `console.log` of the raw registration response body (source line 195)
    is modelled by a `LogEntry` carrying the body itself (the JSON
    serialization is injective on our value model, so carrying the value
    is equivalent to carrying its string).
-/

/-- A JavaScript/JSON runtime value, as far as this script inspects one.
Numbers are modelled as integers: no fractional numeric literal or
arithmetic occurs in any inspected response path. -/
inductive JsVal where
  | vnull : JsVal
  | vundef : JsVal
  | vbool : Bool → JsVal
  | vnum : Int → JsVal
  | vstr : String → JsVal
  | varr : List JsVal → JsVal
  | vobj : List (String × JsVal) → JsVal


/-- JavaScript truthiness of a value. -/
def truthy : JsVal → Bool
  | JsVal.vnull => false
  | JsVal.vundef => false
  | JsVal.vbool b => b
  | JsVal.vnum n => n != 0
  | JsVal.vstr s => s != ("")
  | JsVal.varr _ => true
  | JsVal.vobj _ => true

/-- Property access `v.k`: `undefined` on absent keys and on non-objects
(matching optional chaining through null/undefined, and plain access on
the object results this script performs it on). -/
def jsGet (v : JsVal) (k : String) : JsVal :=
  match v with
  | JsVal.vobj fields => (fields.lookup k).getD JsVal.vundef
  | _ => JsVal.vundef

/-- The JavaScript `k in v` operator on object values. -/
def hasKey (v : JsVal) (k : String) : Bool :=
  match v with
  | JsVal.vobj fields => fields.any (fun p => p.1 == k)
  | _ => false

/-- `Array.isArray`. -/
def isArray : JsVal → Bool
  | JsVal.varr _ => true
  | _ => false

/-- The process environment variables the script reads (src line 64-67);
`none` models an unset variable. -/
structure EnvVars where
  BUFFER_COOKIES : Option String
  BUFFER_ORGANIZATION_ID : Option String
  BUFFER_CHANNEL_ID : Option String
  BUFFER_USER_ID : Option String


/-- The `BufferUploader` instance fields (src lines 56-59). -/
structure BufferUploader where
  cookies : String
  organizationId : String
  channelId : String
  userId : String


/-- The `BufferUploader` constructor (src lines 63-72): each field
defaults to the empty string when the variable is unset, and the
constructor throws when cookies, organizationId or channelId is falsy
(empty). `userId` is stored but not checked. -/
def mkBufferUploader (e : EnvVars) : Except String BufferUploader :=
  let cookies := e.BUFFER_COOKIES.getD ("")
  let organizationId := e.BUFFER_ORGANIZATION_ID.getD ("")
  let channelId := e.BUFFER_CHANNEL_ID.getD ("")
  let userId := e.BUFFER_USER_ID.getD ("")
  if cookies == ("") || organizationId == ("") || channelId == ("") then
    Except.error ("Missing required environment variables. Please check your .env file.")
  else
    Except.ok ⟨cookies, organizationId, channelId, userId⟩

/-- Outcomes of the four remote endpoints for one run: an `Except.error`
is a transport/HTTP failure thrown by axios, an `Except.ok` a 2xx
response carrying the parsed body (`Unit` where the script ignores it). -/
structure Oracle where
  presign : Except String JsVal
  s3put : Except String Unit
  register : Except String JsVal
  post : Except String Unit

/-- `details:` sub-object of the post payload video (src lines 253-261). -/
structure VideoDetails where
  location : JsVal
  transcoded_location : JsVal
  file_size : JsVal
  duration : JsVal
  duration_millis : JsVal
  width : JsVal
  height : JsVal


/-- `video:` sub-object of the post payload media (src lines 250-264). -/
structure MediaVideo where
  title : JsVal
  id : JsVal
  details : VideoDetails
  thumb_offset : Nat
  thumbnails : List JsVal


/-- `media:` sub-object of the post payload (src lines 246-266). -/
structure PostMedia where
  progress : Nat
  uploaded : Bool
  uploading_type : String
  video : MediaVideo
  thumbnail : String


/-- `channel_data.instagram` of the post payload (src lines 240-242). -/
structure InstagramChannelData where
  share_to_feed : Bool


/-- `channel_data:` of the post payload (src lines 239-243). -/
structure ChannelData where
  instagram : InstagramChannelData


/-- The `postData` object literal of `createPost` (src lines 223-269).
`Option JsVal` fields hold `none` for JSON `null` literals. -/
structure PostData where
  share_mode : String
  now : Bool
  top : Bool
  is_draft : Bool
  shorten : Bool
  text : JsVal
  scheduling_type : String
  fb_text : String
  entities : Option JsVal
  annotations : List JsVal
  profile_ids : List String
  attachment : Bool
  via : Option JsVal
  duplicated_from : Option JsVal
  created_source : String
  channel_data : ChannelData
  tags : List JsVal
  update_type : String
  media : PostMedia
  ai_assisted : Bool
  channelGroupIds : List JsVal


/-- Builds the `postData` literal of src lines 223-269 from the
registration result and its details (both already checked truthy by
`createPost`), the configured channel id, and the caption text. -/
def buildPostData (channelId : String) (result details : JsVal) (text : JsVal) : PostData :=
  { share_mode := ("shareNow")
    now := true
    top := false
    is_draft := false
    shorten := true
    text := text
    scheduling_type := ("direct")
    fb_text := ("")
    entities := none
    annotations := []
    profile_ids := [channelId]
    attachment := false
    via := none
    duplicated_from := none
    created_source := ("channel")
    channel_data := { instagram := { share_to_feed := true } }
    tags := []
    update_type := ("reels")
    media :=
      { progress := 100
        uploaded := true
        uploading_type := ("video")
        video :=
          { title := jsGet result ("title")
            id := jsGet result ("upload_id")
            details :=
              { location := jsGet details ("location")
                transcoded_location := jsGet details ("location")
                file_size := jsGet details ("file_size")
                duration := jsGet details ("duration")
                duration_millis := jsGet details ("duration_millis")
                width := jsGet details ("width")
                height := jsGet details ("height") }
            thumb_offset := 0
            thumbnails := [] }
        thumbnail := ("") }
    ai_assisted := false
    channelGroupIds := [] }

/-- One remote call as visible on the wire: endpoint plus the dynamic
parts of its arguments and headers (all other header fields are string
constants in the source). -/
inductive RemoteCall where
  | presignCall (organizationId fileName mimeType cookies : String)
  | s3PutCall (url : JsVal) (mimeType : String)
  | registerCall (s3Key : JsVal) (cookies channelId : String)
  | createPostCall (payload : PostData) (cookies channelId : String)


/-- A console output this development tracks: the raw registration
response body logged at src line 195 before any shape check. -/
inductive LogEntry where
  | registerResponse (raw : JsVal)


/-- The field extraction and truthiness check of `getS3PreSignedURL`
(src lines 117-122): `response.data.data.s3PreSignedURL` must have truthy
`url` and `key`; returns them, else `none` (the source then throws
`Failed to get S3 pre-signed URL`). -/
def presignExtract (body : JsVal) : Option (JsVal × JsVal) :=
  let signed := jsGet (jsGet body ("data")) ("s3PreSignedURL")
  let url := jsGet signed ("url")
  let key := jsGet signed ("key")
  if truthy url && truthy key then some (url, key) else none

/-- The response handling of `registerUpload` (src lines 194-209): a
transport failure is rethrown with the catch-block's prefix; a 2xx body
is first logged raw, then accepted unchanged when it is a truthy value
with a truthy `result` property, else the shape error is thrown. -/
def registerUpload (response : Except String JsVal) : Except String JsVal × List LogEntry :=
  match response with
  | Except.error e => (Except.error (("Failed to register upload: ") ++ e), [])
  | Except.ok data =>
    if truthy data && hasKey data ("result") && truthy (jsGet data ("result")) then
      (Except.ok data, [LogEntry.registerResponse data])
    else
      (Except.error ("Failed to register upload: Unexpected response structure"),
       [LogEntry.registerResponse data])

/-- `createPost` (src lines 215-303): throws `Video details not found in
upload response` unless `uploadResponse.result` and
`uploadResponse.result.details` are truthy; otherwise builds the payload
and submits it, surfacing a transport failure with the catch-block's
prefix. Returns the stage outcome and the remote calls it issued. -/
def createPost (u : BufferUploader) (uploadResponse : JsVal) (text : JsVal)
    (o : Oracle) : Except String Unit × List RemoteCall :=
  if !truthy (jsGet uploadResponse ("result")) ||
     !truthy (jsGet (jsGet uploadResponse ("result")) ("details")) then
    (Except.error ("Video details not found in upload response"), [])
  else
    let result := jsGet uploadResponse ("result")
    let details := jsGet result ("details")
    let postData := buildPostData u.channelId result details text
    let call := RemoteCall.createPostCall postData u.cookies u.channelId
    match o.post with
    | Except.error e => (Except.error (("Failed to create post: ") ++ e), [call])
    | Except.ok _ => (Except.ok (), [call])

/-- The JavaScript test `name.toLowerCase().endsWith('.mp4')` (src line
390), over the characters of the name: the last four characters,
lowercased, are `.mp4`. -/
def isMp4Name (f : String) : Bool :=
  (f.data.map Char.toLower).reverse.take 4 == [('4'), ('p'), ('m'), ('.')]

/-- `mime.lookup` restricted to the one extension this pipeline feeds it
(intake files all end in `.mp4`, for which the library returns
`video/mp4`); other names yield `none` and the source's
`|| 'video/mp4'` fallback applies. -/
def mimeLookup (filePath : String) : Option String :=
  if isMp4Name filePath then some ("video/mp4") else none

/-- Local filesystem state: the two lifecycle directories (`none` when
the directory does not exist, `some names` its listing when it does) and
the optional `captions.json` (`none` missing; `some (Except.error ())` a
file whose contents `JSON.parse` rejects; `some (Except.ok v)` a file
parsing to `v`). -/
structure FsState where
  uploadsDir : Option (List String)
  doneDir : Option (List String)
  captionsFile : Option (Except Unit JsVal)


/-- `uploadVideo` (src lines 308-343): existence check, then the four
stages strictly in sequence, each failure aborting the rest. Returns the
overall outcome, the remote calls issued in order, and the logs. -/
def uploadVideo (u : BufferUploader) (o : Oracle) (fs : FsState)
    (filePath : String) (text : JsVal) :
    Except String Unit × List RemoteCall × List LogEntry :=
  if !(fs.uploadsDir.getD []).contains filePath then
    (Except.error (("File not found: ") ++ filePath), [], [])
  else
    let fileName := filePath
    let mimeType := (mimeLookup filePath).getD ("video/mp4")
    let calls1 := [RemoteCall.presignCall u.organizationId fileName mimeType u.cookies]
    match o.presign with
    | Except.error e => (Except.error e, calls1, [])
    | Except.ok body =>
      match presignExtract body with
      | none => (Except.error ("Failed to get S3 pre-signed URL"), calls1, [])
      | some (url, key) =>
        let calls2 := calls1 ++ [RemoteCall.s3PutCall url mimeType]
        match o.s3put with
        | Except.error e => (Except.error (("Failed to upload to S3: ") ++ e), calls2, [])
        | Except.ok _ =>
          let calls3 := calls2 ++ [RemoteCall.registerCall key u.cookies u.channelId]
          let ru := registerUpload o.register
          match ru.1 with
          | Except.error e => (Except.error e, calls3, ru.2)
          | Except.ok uploadResponse =>
            let pc := createPost u uploadResponse text o
            (pc.1, calls3 ++ pc.2, ru.2)

/-- The default caption of `getRandomCaption` (src line 351). -/
def defaultCaption : JsVal := JsVal.vstr ("Check out this video!")

/-- `Math.floor (rand * n)` as used at src line 367, for the
nonnegative `rand` that `Math.random()` guarantees. -/
def randomIndex (rand : ℚ) (n : Nat) : Nat :=
  (Int.floor (rand * (n : ℚ))).toNat

/-- `getRandomCaption` (src lines 349-373): default on a missing file, on
a parse error (the catch), and on a missing / non-array / empty
`captions` property; otherwise the element at `Math.floor(rand * N)`
(an out-of-range index would yield `undefined`, as in JavaScript). -/
def getRandomCaption (captionsFile : Option (Except Unit JsVal)) (rand : ℚ) : JsVal :=
  match captionsFile with
  | none => defaultCaption
  | some (Except.error _) => defaultCaption
  | some (Except.ok parsed) =>
    let caps := jsGet parsed ("captions")
    if !truthy caps || !isArray caps then defaultCaption
    else
      match caps with
      | JsVal.varr entries =>
        if entries.length == 0 then defaultCaption
        else (entries.get? (randomIndex rand entries.length)).getD JsVal.vundef
      | _ => defaultCaption

/-- `findVideoFile` (src lines 378-398): create the intake directory and
report nothing when it is absent; otherwise the first `.mp4` (listing
order, case-insensitive suffix) or nothing. Returns the selected name and
the updated filesystem. -/
def findVideoFile (fs : FsState) : Option String × FsState :=
  match fs.uploadsDir with
  | none => (none, { fs with uploadsDir := some [] })
  | some files =>
    let mp4Files := files.filter (fun f => isMp4Name f)
    match mp4Files with
    | [] => (none, fs)
    | f :: _ => (some f, fs)

/-- `moveVideoToDone` (src lines 403-416): create the completion
directory when absent, then rename the file into it under its base name
(overwriting an existing entry of that name). -/
def moveVideoToDone (fs : FsState) (videoPath : String) : FsState :=
  let doneFiles := fs.doneDir.getD []
  let fileName := videoPath
  { fs with
    uploadsDir := fs.uploadsDir.map (fun files => files.erase videoPath)
    doneDir := some (if doneFiles.contains fileName then doneFiles else doneFiles ++ [fileName]) }

/-- One run's observable outcome: process exit code, final filesystem
state, remote calls in order, and tracked logs. -/
structure Outcome where
  exitCode : Nat
  fs : FsState
  calls : List RemoteCall
  logs : List LogEntry


namespace Script

/-- `main` (src lines 419-447): find a video (exit 0 when none), pick a
caption, construct the uploader, run the pipeline, move the file on
success; any thrown error exits 1. A normal return exits the process
with status 0. The namespace keeps Lean from treating the pure model as
a program entry point. -/
def main (env : EnvVars) (o : Oracle) (rand : ℚ) (fs0 : FsState) : Outcome :=
  match findVideoFile fs0 with
  | (none, fs1) => { exitCode := 0, fs := fs1, calls := [], logs := [] }
  | (some videoPath, fs1) =>
    let caption := getRandomCaption fs1.captionsFile rand
    match mkBufferUploader env with
    | Except.error _ => { exitCode := 1, fs := fs1, calls := [], logs := [] }
    | Except.ok uploader =>
      match uploadVideo uploader o fs1 videoPath caption with
      | (Except.error _, calls, logs) => { exitCode := 1, fs := fs1, calls := calls, logs := logs }
      | (Except.ok _, calls, logs) =>
        { exitCode := 0, fs := moveVideoToDone fs1 videoPath, calls := calls, logs := logs }

end Script

/-- Recognizes the S3 PUT call (stage 2) in a trace. -/
def RemoteCall.isS3Put : RemoteCall → Bool
  | RemoteCall.s3PutCall _ _ => true
  | _ => false

/-- Recognizes the media-registration call (stage 3) in a trace. -/
def RemoteCall.isRegister : RemoteCall → Bool
  | RemoteCall.registerCall _ _ _ => true
  | _ => false

/-- Recognizes the post-creation call (stage 4) in a trace. -/
def RemoteCall.isPost : RemoteCall → Bool
  | RemoteCall.createPostCall _ _ _ => true
  | _ => false

/-- A complete credential set, used to instantiate the theorems below. -/
def sampleEnv : EnvVars :=
  ⟨some ("cookie=1"), some ("org1"), some ("chan1"), some ("user1")⟩

/-- An uploader instance as built from `sampleEnv`. -/
def sampleUploader : BufferUploader :=
  ⟨("cookie=1"), ("org1"), ("chan1"), ("user1")⟩

/-- A media-details object as the registration endpoint returns one. -/
def sampleDetails : JsVal :=
  JsVal.vobj
    [(("location"), JsVal.vstr ("https://video.example/clip.mp4")),
     (("file_size"), JsVal.vnum 100),
     (("file_extension"), JsVal.vstr (".mp4")),
     (("duration"), JsVal.vnum 7),
     (("duration_millis"), JsVal.vnum 7000),
     (("width"), JsVal.vnum 1080),
     (("height"), JsVal.vnum 1920)]

/-- A media record (the `UploadMediaResult` of the source's interfaces). -/
def sampleRecord : JsVal :=
  JsVal.vobj
    [(("success"), JsVal.vbool true),
     (("upload_id"), JsVal.vstr ("up1")),
     (("details"), sampleDetails),
     (("location"), JsVal.vstr ("https://video.example/clip.mp4")),
     (("type"), JsVal.vstr ("video")),
     (("title"), JsVal.vstr ("clip")),
     (("transcodeVideo"), JsVal.vbool false)]

/-- A singly-wrapped registration response `{ result: <record> }`. -/
def sampleRegisterBody : JsVal :=
  JsVal.vobj [(("result"), sampleRecord)]

/-- The doubly-wrapped registration response variant
`{ result: { result: <record> } }` declared by the source's response type
`{ result: UploadMediaResponse } | UploadMediaResponse` (src line 180). -/
def doubleWrappedRegisterBody : JsVal :=
  JsVal.vobj [(("result"), sampleRegisterBody)]

/-- A presign response body with truthy `url` and `key`. -/
def samplePresignBody : JsVal :=
  JsVal.vobj
    [(("data"),
      JsVal.vobj
        [(("s3PreSignedURL"),
          JsVal.vobj
            [(("url"), JsVal.vstr ("https://s3.example/put")),
             (("key"), JsVal.vstr ("k1")),
             (("bucket"), JsVal.vstr ("b1"))])])]

/-- An oracle under which all four stages succeed. -/
def goodOracle : Oracle :=
  ⟨Except.ok samplePresignBody, Except.ok (), Except.ok sampleRegisterBody, Except.ok ()⟩

/-- A presign response body missing the `key` field. -/
def badPresignBody : JsVal :=
  JsVal.vobj
    [(("data"),
      JsVal.vobj
        [(("s3PreSignedURL"),
          JsVal.vobj [(("url"), JsVal.vstr ("https://s3.example/put"))])])]

/-- An oracle whose presign response is missing a required field. -/
def badPresignOracle : Oracle :=
  ⟨Except.ok badPresignBody, Except.ok (), Except.ok sampleRegisterBody, Except.ok ()⟩

/-- An oracle whose S3 PUT fails. -/
def badS3Oracle : Oracle :=
  ⟨Except.ok samplePresignBody, Except.error ("Forbidden"), Except.ok sampleRegisterBody,
   Except.ok ()⟩

/-- An oracle whose registration response lacks the `result` field. -/
def badRegisterOracle : Oracle :=
  ⟨Except.ok samplePresignBody, Except.ok (), Except.ok (JsVal.vobj []), Except.ok ()⟩

/-- An intake state holding exactly one video file and no captions file. -/
def sampleFs : FsState :=
  ⟨some [("clip.mp4")], none, none⟩

/-- A registration response whose record has empty `upload_id` and empty
`location`, but a truthy `details` object: the fields the specification
calls required are empty without being absent. -/
def emptyFieldsRegisterBody : JsVal :=
  JsVal.vobj
    [(("result"),
      JsVal.vobj
        [(("upload_id"), JsVal.vstr ("")),
         (("location"), JsVal.vstr ("")),
         (("details"),
          JsVal.vobj
            [(("location"), JsVal.vstr ("")),
             (("file_size"), JsVal.vnum 100),
             (("duration"), JsVal.vnum 7),
             (("duration_millis"), JsVal.vnum 7000),
             (("width"), JsVal.vnum 1080),
             (("height"), JsVal.vnum 1920)])])]

/-- The pipeline never reads the stored `userId`: two uploader instances
differing only in that field run identically. -/
theorem uploadVideo_userId_irrelevant (c og ch x y : String) (o : Oracle)
    (fs : FsState) (p : String) (t : JsVal) :
    uploadVideo ⟨c, og, ch, x⟩ o fs p t = uploadVideo ⟨c, og, ch, y⟩ o fs p t := rfl

/-- C3 counterexample: a registration result whose `upload_id` and
`location` are both empty strings (with a truthy `details` object) is not
refused by `createPost`: the stage succeeds and issues the post call. -/
theorem c3_empty_fields_not_refused :
    (createPost sampleUploader emptyFieldsRegisterBody (JsVal.vstr ("caption"))
       goodOracle).1 = Except.ok () ∧
    ((createPost sampleUploader emptyFieldsRegisterBody (JsVal.vstr ("caption"))
       goodOracle).2.any (fun c => c.isPost)) = true ∧
    jsGet (jsGet emptyFieldsRegisterBody ("result")) ("upload_id") = JsVal.vstr ("") ∧
    jsGet (jsGet (jsGet emptyFieldsRegisterBody ("result")) ("details")) ("location") =
      JsVal.vstr ("") :=
  ⟨rfl, rfl, rfl, rfl⟩

/-- C3 (amended): post creation is refused (the error is thrown and no
post call is issued) exactly when the registration response lacks a
truthy `result` or a truthy `result.details`; the emptiness of
`location` and `upload_id` is not checked. -/
theorem c3_details_presence_gates_post (u : BufferUploader) (resp text : JsVal)
    (o : Oracle) :
    ((createPost u resp text o).2 = [] ↔
      (truthy (jsGet resp ("result")) &&
       truthy (jsGet (jsGet resp ("result")) ("details"))) = false) ∧
    ((truthy (jsGet resp ("result")) &&
      truthy (jsGet (jsGet resp ("result")) ("details"))) = false →
      (createPost u resp text o).1 =
        Except.error ("Video details not found in upload response")) := by
  unfold createPost
  cases h1 : truthy (jsGet resp ("result")) <;>
    cases h2 : truthy (jsGet (jsGet resp ("result")) ("details")) <;>
      simp [h1, h2] <;> cases o.post <;> simp

/-- C3 witness: on a `null` registration response the amended refusal
condition holds and the stage throws the details error. -/
theorem c3_details_presence_gates_post_witness :
    (createPost sampleUploader JsVal.vnull (JsVal.vstr ("t")) goodOracle).1 =
      Except.error ("Video details not found in upload response") :=
  (c3_details_presence_gates_post sampleUploader JsVal.vnull (JsVal.vstr ("t"))
    goodOracle).2 (by rfl)

/-- C4: the registration stage accepts both nesting variants declared by
the source's response type (singly wrapped `{result: <record>}` and
doubly wrapped `{result: {result: <record>}}`) and rejects any other
shape with a fatal error after logging the raw body; but the doubly
wrapped variant is returned without unwrapping, so its media record is
never extracted and post creation then fails on it. -/
theorem c4_register_shape_handling :
    (registerUpload (Except.ok sampleRegisterBody)).1 = Except.ok sampleRegisterBody ∧
    (registerUpload (Except.ok doubleWrappedRegisterBody)).1 =
      Except.ok doubleWrappedRegisterBody ∧
    (createPost sampleUploader sampleRegisterBody defaultCaption goodOracle).1 =
      Except.ok () ∧
    (createPost sampleUploader doubleWrappedRegisterBody defaultCaption goodOracle).1 =
      Except.error ("Video details not found in upload response") ∧
    (registerUpload (Except.ok (JsVal.vobj []))).1 =
      Except.error ("Failed to register upload: Unexpected response structure") ∧
    (registerUpload (Except.ok (JsVal.vobj []))).2 =
      [LogEntry.registerResponse (JsVal.vobj [])] :=
  ⟨rfl, rfl, rfl, rfl, rfl, rfl⟩

/-- C5: startup fails exactly when the session cookie, organization id or
channel id is unset or empty; the user id is not required (removing it
does not change the constructor's outcome); and with failing credentials
no remote call is ever issued. -/
theorem c5_required_credentials (e : EnvVars) :
    ((mkBufferUploader e).isOk = false ↔
      (e.BUFFER_COOKIES.getD ("") = ("") ∨ e.BUFFER_ORGANIZATION_ID.getD ("") = ("") ∨
       e.BUFFER_CHANNEL_ID.getD ("") = (""))) ∧
    ((mkBufferUploader { e with BUFFER_USER_ID := none }).isOk =
      (mkBufferUploader e).isOk) ∧
    (∀ (o : Oracle) (rand : ℚ) (fs : FsState),
      (mkBufferUploader e).isOk = false → (Script.main e o rand fs).calls = []) := by
  refine ⟨?_, ?_, ?_⟩
  · cases h : (e.BUFFER_COOKIES.getD ("") == ("") ||
        e.BUFFER_ORGANIZATION_ID.getD ("") == ("") ||
        e.BUFFER_CHANNEL_ID.getD ("") == ("")) with
    | false =>
      have h' := h
      simp only [Bool.or_eq_false_iff, beq_eq_false_iff_ne, ne_eq] at h'
      simp [mkBufferUploader, h, Except.isOk, Except.toBool, h'.1.1, h'.1.2, h'.2]
    | true =>
      have h' := h
      simp only [Bool.or_eq_true, beq_iff_eq] at h'
      simp only [mkBufferUploader, h, Except.isOk, Except.toBool, if_true]
      simpa using or_assoc.mp h'
  · cases h : (e.BUFFER_COOKIES.getD ("") == ("") ||
        e.BUFFER_ORGANIZATION_ID.getD ("") == ("") ||
        e.BUFFER_CHANNEL_ID.getD ("") == ("")) <;>
      simp [mkBufferUploader, h, Except.isOk, Except.toBool]
  · intro o rand fs hbad
    unfold Script.main
    cases hfv : findVideoFile fs with
    | mk sel fs1 =>
      cases sel with
      | none => rfl
      | some v =>
        cases hmk : mkBufferUploader e with
        | error msg => rfl
        | ok u => rw [hmk] at hbad; simp [Except.isOk, Except.toBool] at hbad

/-- C5 witness: with the channel id unset (all else present) the
constructor fails, no remote call is issued on a run with a candidate
video, and dropping only the user id from a complete credential set
leaves startup succeeding. -/
theorem c5_required_credentials_witness :
    ((mkBufferUploader ⟨some ("cookie=1"), some ("org1"), none, some ("u")⟩).isOk = false) ∧
    (Script.main ⟨some ("cookie=1"), some ("org1"), none, some ("u")⟩ goodOracle 0
        sampleFs).calls = [] ∧
    (mkBufferUploader { sampleEnv with BUFFER_USER_ID := none }).isOk = true := by
  refine ⟨?_, ?_, ?_⟩
  · exact (c5_required_credentials ⟨some ("cookie=1"), some ("org1"), none,
      some ("u")⟩).1.mpr (Or.inr (Or.inr rfl))
  · exact (c5_required_credentials ⟨some ("cookie=1"), some ("org1"), none,
      some ("u")⟩).2.2 goodOracle 0 sampleFs ((c5_required_credentials
      ⟨some ("cookie=1"), some ("org1"), none, some ("u")⟩).1.mpr (Or.inr (Or.inr rfl)))
  · have h := (c5_required_credentials sampleEnv).2.1
    rw [h]; rfl

/-- C6: when the intake directory is absent (it is then created) or holds
no `.mp4` file, the process exits 0 and no remote call of any stage is
issued. -/
theorem c6_no_video_exits_zero (env : EnvVars) (o : Oracle) (rand : ℚ) (fs : FsState) :
    (fs.uploadsDir = none →
      (Script.main env o rand fs).exitCode = 0 ∧
      (Script.main env o rand fs).calls = [] ∧
      (Script.main env o rand fs).fs.uploadsDir = some []) ∧
    (∀ files, fs.uploadsDir = some files →
      files.filter (fun f => isMp4Name f) = [] →
      (Script.main env o rand fs).exitCode = 0 ∧
      (Script.main env o rand fs).calls = [] ∧
      (Script.main env o rand fs).fs = fs) := by
  obtain ⟨ud, dd, cf⟩ := fs
  constructor
  · intro h
    dsimp only at h
    subst h
    refine ⟨?_, ?_, ?_⟩ <;> rfl
  · intro files hud hfilter
    dsimp only at hud
    subst hud
    unfold Script.main findVideoFile
    simp only [hfilter]
    exact ⟨trivial, trivial, trivial⟩

/-- C6 witness: an intake directory holding only a text file yields exit
code 0, no remote calls, and an unchanged filesystem. -/
theorem c6_no_video_exits_zero_witness :
    (Script.main sampleEnv goodOracle 0 ⟨some [("notes.txt")], none, none⟩).exitCode = 0 ∧
    (Script.main sampleEnv goodOracle 0 ⟨some [("notes.txt")], none, none⟩).calls = [] ∧
    (Script.main sampleEnv goodOracle 0 ⟨some [("notes.txt")], none, none⟩).fs =
      ⟨some [("notes.txt")], none, none⟩ :=
  (c6_no_video_exits_zero sampleEnv goodOracle 0 ⟨some [("notes.txt")], none, none⟩).2
    [("notes.txt")] rfl (by decide)

/-- With a uniform draw in `[0,1)`, the selected index is within range. -/
theorem randomIndex_lt (rand : ℚ) (n : Nat) (h0 : 0 ≤ rand) (h1 : rand < 1)
    (hn : 0 < n) : randomIndex rand n < n := by
  have hcast : (0:ℚ) < (n : ℚ) := by exact_mod_cast hn
  have hlt : ⌊rand * (n : ℚ)⌋ < (n : ℤ) := by
    rw [Int.floor_lt]
    push_cast
    calc rand * (n : ℚ) < 1 * (n : ℚ) := by
          exact mul_lt_mul_of_pos_right h1 hcast
      _ = (n : ℚ) := one_mul _
  have hge : (0:ℤ) ≤ ⌊rand * (n : ℚ)⌋ :=
    Int.floor_nonneg.mpr (mul_nonneg h0 (le_of_lt hcast))
  unfold randomIndex
  omega

/-- Dividing the grid point `k` of the uniform grid of `n * m` points by
the grid yields the index `k / m`: the selection function quantized. -/
theorem randomIndex_grid (n m k : Nat) (hn : 0 < n) (hm : 0 < m) :
    randomIndex ((k : ℚ) / ((n * m : Nat) : ℚ)) n = k / m := by
  have hnq : ((n : ℚ)) ≠ 0 := by positivity
  have hmq : ((m : ℚ)) ≠ 0 := by positivity
  have hprod : ((k : ℚ) / ((n * m : Nat) : ℚ)) * (n : ℚ) = (k : ℚ) / (m : ℚ) := by
    push_cast
    field_simp
    ring
  unfold randomIndex
  rw [hprod, Int.floor_toNat]
  rw [Nat.floor_div_nat, Nat.floor_natCast]

/-- For each index below `n`, exactly `m` of the `n * m` uniform grid
points select it. -/
theorem randomIndex_uniform (n m i : Nat) (hm : 0 < m) (hi : i < n) :
    ((Finset.range (n * m)).filter
      (fun (k : Nat) => randomIndex ((k : ℚ) / ((n * m : Nat) : ℚ)) n = i)).card = m := by
  have hn : 0 < n := Nat.lt_of_le_of_lt (Nat.zero_le i) hi
  have hset : (Finset.range (n * m)).filter
      (fun (k : Nat) => randomIndex ((k : ℚ) / ((n * m : Nat) : ℚ)) n = i) =
      Finset.Ico (i * m) ((i + 1) * m) := by
    ext k
    simp only [Finset.mem_filter, Finset.mem_range, Finset.mem_Ico,
      randomIndex_grid n m k hn hm]
    constructor
    · rintro ⟨hk, hdiv⟩
      subst hdiv
      refine ⟨Nat.div_mul_le_self k m, ?_⟩
      have hmod := Nat.mod_lt k hm
      have hdm := Nat.div_add_mod k m
      calc k = m * (k / m) + k % m := (Nat.div_add_mod k m).symm
        _ < m * (k / m) + m := by omega
        _ = (k / m + 1) * m := by ring
    · rintro ⟨hlo, hhi⟩
      have hdiv : k / m = i := Nat.div_eq_of_lt_le hlo hhi
      refine ⟨?_, hdiv⟩
      have : (i + 1) * m ≤ n * m := Nat.mul_le_mul_right m hi
      omega
  rw [hset, Nat.card_Ico, Nat.succ_mul, Nat.add_sub_cancel_left]

/-- C7: caption selection. A missing captions file, an unparseable file,
a missing or non-array `captions` property, and an empty list all yield
the fixed default caption; with a nonempty list of `N` entries, the
selected caption is always an element of the list, each of the `N`
entries is selectable (the draw `i / N` selects entry `i`), and the
selection is uniform: on the uniform grid of `n * m` draws, every index
below `n` is selected by exactly `m` grid points. -/
theorem c7_caption_selection :
    (∀ rand : ℚ, getRandomCaption none rand = defaultCaption) ∧
    (∀ rand : ℚ, getRandomCaption (some (Except.error ())) rand = defaultCaption) ∧
    (∀ (parsed : JsVal) (rand : ℚ),
      (truthy (jsGet parsed ("captions")) && isArray (jsGet parsed ("captions"))) = false →
      getRandomCaption (some (Except.ok parsed)) rand = defaultCaption) ∧
    (∀ (parsed : JsVal) (rand : ℚ), jsGet parsed ("captions") = JsVal.varr [] →
      getRandomCaption (some (Except.ok parsed)) rand = defaultCaption) ∧
    (∀ (parsed : JsVal) (entries : List JsVal) (rand : ℚ),
      jsGet parsed ("captions") = JsVal.varr entries → entries ≠ [] →
      0 ≤ rand → rand < 1 →
      getRandomCaption (some (Except.ok parsed)) rand ∈ entries) ∧
    (∀ (parsed : JsVal) (entries : List JsVal) (i : Nat) (hi : i < entries.length),
      jsGet parsed ("captions") = JsVal.varr entries →
      getRandomCaption (some (Except.ok parsed)) ((i : ℚ) / (entries.length : ℚ)) =
        entries.get ⟨i, hi⟩) ∧
    (∀ (n m i : Nat), 0 < m → i < n →
      ((Finset.range (n * m)).filter
        (fun (k : Nat) => randomIndex ((k : ℚ) / ((n * m : Nat) : ℚ)) n = i)).card = m) := by
  refine ⟨fun _ => rfl, fun _ => rfl, ?_, ?_, ?_, ?_, randomIndex_uniform⟩
  · intro parsed rand h
    have hcond : (!truthy (jsGet parsed ("captions")) ||
        !isArray (jsGet parsed ("captions"))) = true := by
      rw [← Bool.not_and]
      simp [h]
    simp [getRandomCaption, hcond]
  · intro parsed rand h
    simp [getRandomCaption, h, truthy, isArray]
  · intro parsed entries rand hcap hne h0 h1
    have hn : 0 < entries.length := List.length_pos.mpr hne
    have hidx := randomIndex_lt rand entries.length h0 h1 hn
    have hnz : (entries.length == 0) = false := by
      simp only [beq_eq_false_iff_ne, ne_eq]
      omega
    simp only [getRandomCaption, hcap, truthy, isArray, Bool.not_true, Bool.or_self,
      Bool.false_or, Bool.or_false, if_false, hnz, ite_false]
    rw [List.get?_eq_get hidx]
    simp only [Option.getD_some]
    exact List.get_mem entries _ _
  · intro parsed entries i hi hcap
    have hn : 0 < entries.length := Nat.lt_of_le_of_lt (Nat.zero_le i) hi
    have hfloor : randomIndex ((i : ℚ) / (entries.length : ℚ)) entries.length = i := by
      unfold randomIndex
      have hlq : ((entries.length : ℚ)) ≠ 0 := by positivity
      have hmul : ((i : ℚ) / (entries.length : ℚ)) * (entries.length : ℚ) = (i : ℚ) := by
        field_simp
      rw [hmul, Int.floor_natCast]
      exact Int.toNat_natCast i
    have hnz : (entries.length == 0) = false := by
      simp only [beq_eq_false_iff_ne, ne_eq]
      omega
    simp only [getRandomCaption, hcap, truthy, isArray, Bool.not_true, Bool.or_self,
      Bool.false_or, Bool.or_false, if_false, hnz, ite_false, hfloor]
    rw [List.get?_eq_get hi]
    rfl

/-- C7 witness: with captions `A`, `B` the draw one half selects a list
element, and with no captions file the default caption is returned. -/
theorem c7_caption_selection_witness :
    (getRandomCaption (some (Except.ok (JsVal.vobj [(("captions"),
        JsVal.varr [JsVal.vstr ("A"), JsVal.vstr ("B")])]))) ((1 : ℚ) / 2) ∈
      [JsVal.vstr ("A"), JsVal.vstr ("B")]) ∧
    getRandomCaption none ((1 : ℚ) / 2) = defaultCaption := by
  constructor
  · exact (c7_caption_selection).2.2.2.2.1 _ _ _ rfl (by simp) (by norm_num) (by norm_num)
  · exact (c7_caption_selection).1 _

/-- When the intake directory exists, scanning it leaves the filesystem
unchanged (whether or not a video is found). -/
theorem findVideoFile_state_stable (s : FsState) (files : List String)
    (h : s.uploadsDir = some files) : (findVideoFile s).2 = s := by
  obtain ⟨ud, dd, cf⟩ := s
  dsimp only at h
  subst h
  unfold findVideoFile
  dsimp only
  cases List.filter (fun f => isMp4Name f) files <;> rfl

/-- After one scan the intake directory always exists. -/
theorem findVideoFile_creates_dir (s : FsState) :
    ∃ files, (findVideoFile s).2.uploadsDir = some files := by
  obtain ⟨ud, dd, cf⟩ := s
  cases ud with
  | none => exact ⟨[], rfl⟩
  | some files =>
    refine ⟨files, ?_⟩
    rw [findVideoFile_state_stable ⟨some files, dd, cf⟩ files rfl]

/-- A successful scan returns a `.mp4` member of the intake listing and
does not change the filesystem. -/
theorem findVideoFile_some (s : FsState) (v : String)
    (h : (findVideoFile s).1 = some v) :
    (findVideoFile s).2 = s ∧
    ∃ files, s.uploadsDir = some files ∧ v ∈ files ∧ isMp4Name v = true := by
  obtain ⟨ud, dd, cf⟩ := s
  cases ud with
  | none => exact absurd h (by simp [findVideoFile])
  | some files =>
    cases hf : List.filter (fun f => isMp4Name f) files with
    | nil =>
      exact absurd h (by simp [findVideoFile, hf])
    | cons f rest =>
      have hv : v = f := by
        have : (findVideoFile ⟨some files, dd, cf⟩).1 = some f := by
          simp [findVideoFile, hf]
        rw [this] at h
        exact (Option.some_inj.mp h).symm
      subst hv
      have hfmem : v ∈ List.filter (fun f => isMp4Name f) files := by
        rw [hf]; exact List.mem_cons_self v rest
      refine ⟨findVideoFile_state_stable _ files rfl, files, rfl, ?_, ?_⟩
      · exact List.mem_of_mem_filter hfmem
      · exact List.of_mem_filter hfmem

/-- C8: with exactly one `.mp4` in the intake directory that file is
selected; the scan creates the intake directory when it is absent and a
repeated scan leaves the filesystem unchanged (idempotent, no failure);
the move step likewise ensures the completion directory exists. -/
theorem c8_selection_and_directory_idempotence (fs : FsState) :
    (∀ (files : List String) (f : String), fs.uploadsDir = some files →
      files.filter (fun x => isMp4Name x) = [f] →
      (findVideoFile fs).1 = some f) ∧
    ((findVideoFile fs).2.uploadsDir.isSome = true) ∧
    (findVideoFile ((findVideoFile fs).2) =
      ((findVideoFile ((findVideoFile fs).2)).1, (findVideoFile fs).2)) ∧
    (∀ files, fs.uploadsDir = some files → (findVideoFile fs).2 = fs) ∧
    (∀ v, (moveVideoToDone fs v).doneDir.isSome = true) := by
  refine ⟨?_, ?_, ?_, fun files h => findVideoFile_state_stable fs files h, fun v => rfl⟩
  · intro files f hud hfilter
    obtain ⟨ud, dd, cf⟩ := fs
    dsimp only at hud
    subst hud
    simp [findVideoFile, hfilter]
  · obtain ⟨files, h⟩ := findVideoFile_creates_dir fs
    rw [h]
    rfl
  · obtain ⟨files, h⟩ := findVideoFile_creates_dir fs
    have := findVideoFile_state_stable ((findVideoFile fs).2) files h
    exact Prod.ext rfl this

/-- C8 witness: the intake holding exactly `clip.mp4` selects it, and a
scan of an absent intake directory creates the directory. -/
theorem c8_selection_and_directory_idempotence_witness :
    (findVideoFile sampleFs).1 = some ("clip.mp4") ∧
    (findVideoFile ⟨none, none, none⟩).2.uploadsDir.isSome = true :=
  ⟨(c8_selection_and_directory_idempotence sampleFs).1 [("clip.mp4")] ("clip.mp4")
      rfl (by decide),
   (c8_selection_and_directory_idempotence ⟨none, none, none⟩).2.1⟩

/-- The constructor's stored fields are exactly the environment values
(with empty-string defaults). -/
theorem mkBufferUploader_ok_fields (e : EnvVars) (u : BufferUploader)
    (h : mkBufferUploader e = Except.ok u) :
    u.cookies = e.BUFFER_COOKIES.getD ("") ∧
    u.organizationId = e.BUFFER_ORGANIZATION_ID.getD ("") ∧
    u.channelId = e.BUFFER_CHANNEL_ID.getD ("") ∧
    u.userId = e.BUFFER_USER_ID.getD ("") := by
  unfold mkBufferUploader at h
  dsimp only at h
  split at h
  · exact absurd h (by simp)
  · injection h with h'
    subst h'
    exact ⟨rfl, rfl, rfl, rfl⟩

/-- Any post call issued by `createPost` carries the payload built by
`buildPostData` from the response's record and details, the configured
cookies, and the configured channel id. -/
theorem createPost_call_form (u : BufferUploader) (resp text : JsVal) (o : Oracle)
    (p : PostData) (ck ch : String)
    (hmem : RemoteCall.createPostCall p ck ch ∈ (createPost u resp text o).2) :
    p = buildPostData u.channelId (jsGet resp ("result"))
          (jsGet (jsGet resp ("result")) ("details")) text ∧
    ck = u.cookies ∧ ch = u.channelId := by
  unfold createPost at hmem
  cases hc : (!truthy (jsGet resp ("result")) ||
      !truthy (jsGet (jsGet resp ("result")) ("details"))) with
  | true =>
    simp only [hc, if_true] at hmem
    simp at hmem
  | false =>
    simp only [hc, Bool.false_eq_true, if_false] at hmem
    cases hpost : o.post with
    | error e =>
      rw [hpost] at hmem
      simp only [List.mem_singleton] at hmem
      injection hmem with h1 h2 h3
      exact ⟨h1, h2, h3⟩
    | ok a =>
      rw [hpost] at hmem
      simp only [List.mem_singleton] at hmem
      injection hmem with h1 h2 h3
      exact ⟨h1, h2, h3⟩

/-- When `createPost` succeeds, its trace holds the post call. -/
theorem createPost_ok_has_post (u : BufferUploader) (resp text : JsVal) (o : Oracle)
    (h : (createPost u resp text o).1 = Except.ok ()) :
    ((createPost u resp text o).2.any (fun c => c.isPost)) = true := by
  unfold createPost at h ⊢
  cases hc : (!truthy (jsGet resp ("result")) ||
      !truthy (jsGet (jsGet resp ("result")) ("details"))) with
  | true =>
    simp only [hc, if_true] at h
    exact absurd h (by simp)
  | false =>
    simp only [hc, Bool.false_eq_true, if_false] at h ⊢
    cases hpost : o.post with
    | error e => rfl
    | ok a => rfl

/-- Every post call in the pipeline trace carries the hard-coded
publishing constants and the configured channel. -/
theorem uploadVideo_post_call_form (u : BufferUploader) (o : Oracle) (fs : FsState)
    (path : String) (text : JsVal) (p : PostData) (ck ch : String)
    (hmem : RemoteCall.createPostCall p ck ch ∈ (uploadVideo u o fs path text).2.1) :
    p.share_mode = ("shareNow") ∧ p.now = true ∧ p.is_draft = false ∧
    p.update_type = ("reels") ∧ p.profile_ids = [u.channelId] ∧
    ck = u.cookies ∧ ch = u.channelId := by
  unfold uploadVideo at hmem
  split at hmem
  · exact absurd hmem (List.not_mem_nil _)
  · split at hmem
    · simp at hmem
    · split at hmem
      · simp at hmem
      · split at hmem
        · simp at hmem
        · dsimp only at hmem
          split at hmem
          · simp at hmem
          · rw [List.mem_append] at hmem
            rcases hmem with hmem | hmem
            · simp at hmem
            · rename_i body url key a resp heq
              obtain ⟨hp1, hck, hch⟩ := createPost_call_form u resp text o p ck ch hmem
              subst hp1
              exact ⟨rfl, rfl, rfl, rfl, rfl, hck, hch⟩

/-- Stage 1 abort: a presign response missing `url`/`key` fails the
pipeline with only the presign call on the wire. -/
theorem uploadVideo_presign_missing (u : BufferUploader) (o : Oracle) (fs : FsState)
    (path : String) (text : JsVal) (body : JsVal)
    (hp : o.presign = Except.ok body) (hx : presignExtract body = none) :
    (uploadVideo u o fs path text).1.isOk = false ∧
    ((uploadVideo u o fs path text).2.1.all
      (fun c => !c.isS3Put && !c.isRegister && !c.isPost)) = true := by
  unfold uploadVideo
  split
  · exact ⟨rfl, rfl⟩
  · rw [hp]
    dsimp only
    rw [hx]
    exact ⟨rfl, rfl⟩

/-- Stage 2 abort: a failed S3 PUT fails the pipeline before any
registration or post call. -/
theorem uploadVideo_s3put_error (u : BufferUploader) (o : Oracle) (fs : FsState)
    (path : String) (text : JsVal) (e : String) (hs : o.s3put = Except.error e) :
    (uploadVideo u o fs path text).1.isOk = false ∧
    ((uploadVideo u o fs path text).2.1.all
      (fun c => !c.isRegister && !c.isPost)) = true := by
  unfold uploadVideo
  split
  · exact ⟨rfl, rfl⟩
  · cases hp : o.presign with
    | error e2 => exact ⟨rfl, rfl⟩
    | ok body =>
      dsimp only
      cases hx : presignExtract body with
      | none => exact ⟨rfl, rfl⟩
      | some pair =>
        obtain ⟨url, key⟩ := pair
        dsimp only
        rw [hs]
        exact ⟨rfl, rfl⟩

/-- Stage 3 abort: a registration response without a truthy `result`
fails the pipeline before any post call. -/
theorem uploadVideo_register_bad (u : BufferUploader) (o : Oracle) (fs : FsState)
    (path : String) (text : JsVal) (body : JsVal)
    (hr : o.register = Except.ok body)
    (hbad : (truthy body && hasKey body ("result") && truthy (jsGet body ("result"))) = false) :
    (uploadVideo u o fs path text).1.isOk = false ∧
    ((uploadVideo u o fs path text).2.1.all (fun c => !c.isPost)) = true := by
  unfold uploadVideo
  split
  · exact ⟨rfl, rfl⟩
  · cases hp : o.presign with
    | error e2 => exact ⟨rfl, rfl⟩
    | ok pbody =>
      dsimp only
      cases hx : presignExtract pbody with
      | none => exact ⟨rfl, rfl⟩
      | some pair =>
        obtain ⟨url, key⟩ := pair
        dsimp only
        cases hs : o.s3put with
        | error e2 => exact ⟨rfl, rfl⟩
        | ok a =>
          dsimp only
          rw [hr]
          unfold registerUpload
          dsimp only
          rw [hbad]
          exact ⟨rfl, rfl⟩

/-- A successful pipeline run issued the post-creation call. -/
theorem uploadVideo_ok_has_post (u : BufferUploader) (o : Oracle) (fs : FsState)
    (path : String) (text : JsVal)
    (h : (uploadVideo u o fs path text).1 = Except.ok ()) :
    ((uploadVideo u o fs path text).2.1.any (fun c => c.isPost)) = true := by
  unfold uploadVideo at h ⊢
  by_cases hc : ((!(fs.uploadsDir.getD []).contains path) = true)
  · rw [if_pos hc] at h
    exact absurd h (by simp)
  · rw [if_neg hc] at h ⊢
    cases hp : o.presign with
    | error e => rw [hp] at h; exact absurd h (by simp)
    | ok body =>
      rw [hp] at h
      dsimp only at h ⊢
      cases hx : presignExtract body with
      | none => rw [hx] at h; exact absurd h (by simp)
      | some pair =>
        obtain ⟨url, key⟩ := pair
        rw [hx] at h
        dsimp only at h ⊢
        cases hs : o.s3put with
        | error e => rw [hs] at h; exact absurd h (by simp)
        | ok a =>
          rw [hs] at h
          dsimp only at h ⊢
          cases hr : (registerUpload o.register).1 with
          | error e => rw [hr] at h; exact absurd h (by simp)
          | ok resp =>
            rw [hr] at h
            dsimp only at h ⊢
            rw [List.any_append]
            rw [createPost_ok_has_post u resp text o h]
            simp

/-- Control-flow dispatch of `main` once a video was found: either the
constructor throws (exit 1, nothing on the wire), or the pipeline fails
(exit 1, filesystem untouched) or succeeds (exit 0, file moved). -/
theorem main_dispatch (env : EnvVars) (o : Oracle) (rand : ℚ) (fs : FsState)
    (v : String) (hv : (findVideoFile fs).1 = some v) :
    (∃ err, mkBufferUploader env = Except.error err ∧
      Script.main env o rand fs = ⟨1, fs, [], []⟩) ∨
    (∃ u, mkBufferUploader env = Except.ok u ∧
      ((∃ e, (uploadVideo u o fs v (getRandomCaption fs.captionsFile rand)).1 =
          Except.error e ∧
        Script.main env o rand fs =
          ⟨1, fs, (uploadVideo u o fs v (getRandomCaption fs.captionsFile rand)).2.1,
           (uploadVideo u o fs v (getRandomCaption fs.captionsFile rand)).2.2⟩) ∨
       ((uploadVideo u o fs v (getRandomCaption fs.captionsFile rand)).1 =
          Except.ok () ∧
        Script.main env o rand fs =
          ⟨0, moveVideoToDone fs v,
           (uploadVideo u o fs v (getRandomCaption fs.captionsFile rand)).2.1,
           (uploadVideo u o fs v (getRandomCaption fs.captionsFile rand)).2.2⟩))) := by
  have hstable := (findVideoFile_some fs v hv).1
  have hfv : findVideoFile fs = (some v, fs) := Prod.ext hv hstable
  unfold Script.main
  rw [hfv]
  dsimp only
  cases hmk : mkBufferUploader env with
  | error err => exact Or.inl ⟨err, rfl, rfl⟩
  | ok u =>
    dsimp only
    refine Or.inr ⟨u, rfl, ?_⟩
    cases huv : uploadVideo u o fs v (getRandomCaption fs.captionsFile rand) with
    | mk res rest =>
      obtain ⟨calls, logs⟩ := rest
      cases res with
      | error e => exact Or.inl ⟨e, rfl, rfl⟩
      | ok a =>
        cases a
        exact Or.inr ⟨rfl, rfl⟩

/-- The moved file is in the completion directory under its name. -/
theorem moveVideoToDone_done_mem (fs : FsState) (v : String) :
    v ∈ ((moveVideoToDone fs v).doneDir.getD []) := by
  unfold moveVideoToDone
  dsimp only
  cases hc : (fs.doneDir.getD []).contains v with
  | true =>
    simp only [hc, if_true, Option.getD_some]
    exact List.mem_of_elem_eq_true hc
  | false =>
    simp only [hc, Bool.false_eq_true, if_false, Option.getD_some]
    exact List.mem_append_right _ (List.mem_singleton.mpr rfl)

/-- The moved file is gone from the intake directory. -/
theorem moveVideoToDone_uploads_not_mem (fs : FsState) (v : String)
    (hnd : (fs.uploadsDir.getD []).Nodup) :
    v ∉ ((moveVideoToDone fs v).uploadsDir.getD []) := by
  unfold moveVideoToDone
  dsimp only
  cases hud : fs.uploadsDir with
  | none => simp
  | some files =>
    rw [hud] at hnd
    simp only [Option.getD_some] at hnd
    intro hmem
    have hmem2 : v ∈ List.erase files v := hmem
    exact ((List.Nodup.mem_erase_iff hnd).mp hmem2).1 rfl

/-- C1: a presign response missing its required field aborts with exit 1
before the S3 PUT; a failed S3 PUT aborts before registration; a
registration response missing its `result` aborts before post creation:
every such run exits 1 with no later stage on the wire. -/
theorem c1_stage_failure_aborts_run (env : EnvVars) (o : Oracle) (rand : ℚ)
    (fs : FsState) (v : String) (hv : (findVideoFile fs).1 = some v) :
    (∀ body, o.presign = Except.ok body → presignExtract body = none →
      (Script.main env o rand fs).exitCode = 1 ∧
      ((Script.main env o rand fs).calls.all
        (fun c => !c.isS3Put && !c.isRegister && !c.isPost)) = true) ∧
    (∀ e, o.s3put = Except.error e →
      (Script.main env o rand fs).exitCode = 1 ∧
      ((Script.main env o rand fs).calls.all
        (fun c => !c.isRegister && !c.isPost)) = true) ∧
    (∀ body, o.register = Except.ok body →
      (truthy body && hasKey body ("result") && truthy (jsGet body ("result"))) = false →
      (Script.main env o rand fs).exitCode = 1 ∧
      ((Script.main env o rand fs).calls.all (fun c => !c.isPost)) = true) := by
  refine ⟨?_, ?_, ?_⟩
  · intro body hp hx
    rcases main_dispatch env o rand fs v hv with ⟨err, hmk, hmain⟩ |
      ⟨u, hmk, ⟨e, herr, hmain⟩ | ⟨hok, hmain⟩⟩
    · rw [hmain]; exact ⟨rfl, rfl⟩
    · rw [hmain]
      exact ⟨rfl, (uploadVideo_presign_missing u o fs v
        (getRandomCaption fs.captionsFile rand) body hp hx).2⟩
    · have := (uploadVideo_presign_missing u o fs v
        (getRandomCaption fs.captionsFile rand) body hp hx).1
      rw [hok] at this
      exact absurd this (by simp [Except.isOk, Except.toBool])
  · intro e hs
    rcases main_dispatch env o rand fs v hv with ⟨err, hmk, hmain⟩ |
      ⟨u, hmk, ⟨e2, herr, hmain⟩ | ⟨hok, hmain⟩⟩
    · rw [hmain]; exact ⟨rfl, rfl⟩
    · rw [hmain]
      exact ⟨rfl, (uploadVideo_s3put_error u o fs v
        (getRandomCaption fs.captionsFile rand) e hs).2⟩
    · have := (uploadVideo_s3put_error u o fs v
        (getRandomCaption fs.captionsFile rand) e hs).1
      rw [hok] at this
      exact absurd this (by simp [Except.isOk, Except.toBool])
  · intro body hr hbad
    rcases main_dispatch env o rand fs v hv with ⟨err, hmk, hmain⟩ |
      ⟨u, hmk, ⟨e2, herr, hmain⟩ | ⟨hok, hmain⟩⟩
    · rw [hmain]; exact ⟨rfl, rfl⟩
    · rw [hmain]
      exact ⟨rfl, (uploadVideo_register_bad u o fs v
        (getRandomCaption fs.captionsFile rand) body hr hbad).2⟩
    · have := (uploadVideo_register_bad u o fs v
        (getRandomCaption fs.captionsFile rand) body hr hbad).1
      rw [hok] at this
      exact absurd this (by simp [Except.isOk, Except.toBool])

/-- C1 witness: with a presign response missing `key` the run exits 1
and no S3 PUT, registration, or post call is on the wire. -/
theorem c1_stage_failure_aborts_run_witness :
    (Script.main sampleEnv badPresignOracle 0 sampleFs).exitCode = 1 ∧
    ((Script.main sampleEnv badPresignOracle 0 sampleFs).calls.all
      (fun c => !c.isS3Put && !c.isRegister && !c.isPost)) = true :=
  (c1_stage_failure_aborts_run sampleEnv badPresignOracle 0 sampleFs ("clip.mp4")
    rfl).1 badPresignBody rfl rfl

/-- C2: once a video is found, a run exiting 0 has completed all four
stages (the post call is on the wire) and has moved the file: it is in
the completion directory under its original name and gone from the
intake directory; a run exiting 1 leaves the filesystem exactly as it
was, the file still in the intake directory. -/
theorem c2_two_state_lifecycle (env : EnvVars) (o : Oracle) (rand : ℚ)
    (fs : FsState) (v : String) (hv : (findVideoFile fs).1 = some v)
    (hnodup : (fs.uploadsDir.getD []).Nodup) :
    ((Script.main env o rand fs).exitCode = 0 →
      v ∈ ((Script.main env o rand fs).fs.doneDir.getD []) ∧
      v ∉ ((Script.main env o rand fs).fs.uploadsDir.getD []) ∧
      ((Script.main env o rand fs).calls.any (fun c => c.isPost)) = true) ∧
    ((Script.main env o rand fs).exitCode = 1 →
      (Script.main env o rand fs).fs = fs ∧ v ∈ (fs.uploadsDir.getD [])) := by
  have hvmem : v ∈ (fs.uploadsDir.getD []) := by
    obtain ⟨files, hud, hmem, _⟩ := (findVideoFile_some fs v hv).2
    rw [hud]
    simpa using hmem
  rcases main_dispatch env o rand fs v hv with ⟨err, hmk, hmain⟩ |
    ⟨u, hmk, ⟨e, herr, hmain⟩ | ⟨hok, hmain⟩⟩
  · rw [hmain]
    exact ⟨fun h0 => absurd h0 (by simp), fun _ => ⟨rfl, hvmem⟩⟩
  · rw [hmain]
    exact ⟨fun h0 => absurd h0 (by simp), fun _ => ⟨rfl, hvmem⟩⟩
  · rw [hmain]
    refine ⟨fun _ => ⟨moveVideoToDone_done_mem fs v,
      moveVideoToDone_uploads_not_mem fs v hnodup,
      uploadVideo_ok_has_post u o fs v (getRandomCaption fs.captionsFile rand) hok⟩,
      fun h1 => absurd h1 (by simp)⟩

/-- C2 witness: the fully successful sample run exits 0 with `clip.mp4`
in the completion directory, gone from intake, and a post call made. -/
theorem c2_two_state_lifecycle_witness :
    ("clip.mp4") ∈ ((Script.main sampleEnv goodOracle 0 sampleFs).fs.doneDir.getD []) ∧
    ("clip.mp4") ∉ ((Script.main sampleEnv goodOracle 0 sampleFs).fs.uploadsDir.getD []) ∧
    ((Script.main sampleEnv goodOracle 0 sampleFs).calls.any (fun c => c.isPost)) = true :=
  (c2_two_state_lifecycle sampleEnv goodOracle 0 sampleFs ("clip.mp4") rfl
    (by decide)).1 rfl

/-- C9: every post call the program ever issues carries the hard-coded
publishing constants: share mode `shareNow` with `now` true, not a
draft, update type `reels`, and exactly the configured channel id as the
sole profile id (also the channel the call is addressed to). -/
theorem c9_post_payload_constants (env : EnvVars) (o : Oracle) (rand : ℚ)
    (fs : FsState) (p : PostData) (ck ch : String)
    (hmem : RemoteCall.createPostCall p ck ch ∈ (Script.main env o rand fs).calls) :
    p.share_mode = ("shareNow") ∧ p.now = true ∧ p.is_draft = false ∧
    p.update_type = ("reels") ∧
    p.profile_ids = [env.BUFFER_CHANNEL_ID.getD ("")] ∧
    ch = env.BUFFER_CHANNEL_ID.getD ("") := by
  unfold Script.main at hmem
  cases hfv : findVideoFile fs with
  | mk sel fs1 =>
    rw [hfv] at hmem
    cases sel with
    | none => simp at hmem
    | some v =>
      dsimp only at hmem
      cases hmk : mkBufferUploader env with
      | error err => rw [hmk] at hmem; simp at hmem
      | ok u =>
        rw [hmk] at hmem
        dsimp only at hmem
        cases huv : uploadVideo u o fs1 v (getRandomCaption fs1.captionsFile rand) with
        | mk res rest =>
          obtain ⟨calls, logs⟩ := rest
          rw [huv] at hmem
          have hmem2 : RemoteCall.createPostCall p ck ch ∈
              (uploadVideo u o fs1 v (getRandomCaption fs1.captionsFile rand)).2.1 := by
            rw [huv]
            cases res with
            | error e => simpa using hmem
            | ok a => simpa using hmem
          obtain ⟨h1, h2, h3, h4, h5, h6, h7⟩ :=
            uploadVideo_post_call_form u o fs1 v
              (getRandomCaption fs1.captionsFile rand) p ck ch hmem2
          have hch := (mkBufferUploader_ok_fields env u hmk).2.2.1
          exact ⟨h1, h2, h3, h4, by rw [h5, hch], by rw [h7, hch]⟩

/-- C9 witness: the post call of the successful sample run carries the
constants. -/
theorem c9_post_payload_constants_witness :
    (buildPostData ("chan1") sampleRecord sampleDetails defaultCaption).share_mode =
      ("shareNow") ∧
    (buildPostData ("chan1") sampleRecord sampleDetails defaultCaption).now = true ∧
    (buildPostData ("chan1") sampleRecord sampleDetails defaultCaption).is_draft = false ∧
    (buildPostData ("chan1") sampleRecord sampleDetails defaultCaption).update_type =
      ("reels") ∧
    (buildPostData ("chan1") sampleRecord sampleDetails
      defaultCaption).profile_ids = [("chan1")] ∧
    ("chan1") = ((sampleEnv.BUFFER_CHANNEL_ID).getD ("")) := by
  have h := c9_post_payload_constants sampleEnv goodOracle 0 sampleFs
    (buildPostData ("chan1") sampleRecord sampleDetails defaultCaption)
    ("cookie=1") ("chan1")
    (List.mem_cons_of_mem _ (List.mem_cons_of_mem _ (List.mem_cons_of_mem _
      (List.mem_cons_self _ _))))
  exact h

/-- C10: the stored user id is never read after construction: two runs
differing only in `BUFFER_USER_ID`, with all other inputs and remote
responses equal, produce identical outcomes (exit code, filesystem,
remote calls with their payloads and headers, and logs). -/
theorem c10_userId_noninterference (e : EnvVars) (uid1 uid2 : Option String)
    (o : Oracle) (rand : ℚ) (fs : FsState) :
    Script.main { e with BUFFER_USER_ID := uid1 } o rand fs =
      Script.main { e with BUFFER_USER_ID := uid2 } o rand fs := by
  unfold Script.main
  cases hfv : findVideoFile fs with
  | mk sel fs1 =>
    cases sel with
    | none => rfl
    | some v =>
      dsimp only
      unfold mkBufferUploader
      dsimp only
      cases hcond : (e.BUFFER_COOKIES.getD ("") == ("") ||
          e.BUFFER_ORGANIZATION_ID.getD ("") == ("") ||
          e.BUFFER_CHANNEL_ID.getD ("") == ("")) with
      | true => rfl
      | false =>
        rw [if_neg (by decide : ¬ (false = true)), if_neg (by decide : ¬ (false = true))]
        dsimp only
        rw [uploadVideo_userId_irrelevant (e.BUFFER_COOKIES.getD (""))
          (e.BUFFER_ORGANIZATION_ID.getD ("")) (e.BUFFER_CHANNEL_ID.getD (""))
          (uid1.getD ("")) (uid2.getD ("")) o fs1 v
          (getRandomCaption fs1.captionsFile rand)]
